import Mathlib

/-!
Shallow embedding of the ocypus-digital temperature-display program.

Floating point: the program computes on `f32`. We model `f32` values as an
inductive type `Float32` with a finite case carrying an exact rational, plus
the three non-finite cases (`nan`, `posInf`, `negInf`). Finite arithmetic is
modelled exactly over `ℚ` (the concrete temperatures in the claims are chosen
so that `f32` rounding never changes any displayed digit); comparisons follow
Rust's `PartialOrd` for `f32` (every comparison involving NaN is false), and
the saturating `as u32` / `as i32` casts follow Rust's cast semantics
(truncation toward zero, saturation at the type bounds, NaN mapped to 0).

Rational arithmetic is written through the helpers `qmul`, `qdiv`, `qadd` and
`qfloor`, which are defined via `Rat.divInt` so that every definition evaluates
by kernel reduction on concrete inputs; the lemmas `qmul_eq`, `qdiv_eq`,
`qadd_eq` and `qfloor_eq` identify them with the standard field operations and
`Int.floor` on `ℚ`.
-/

/-- Multiplication on `ℚ`, phrased via `Rat.divInt` so it kernel-reduces. -/
def qmul (a b : ℚ) : ℚ := Rat.divInt (a.num * b.num) ((a.den : Int) * (b.den : Int))

/-- Division on `ℚ`, phrased via `Rat.divInt` so it kernel-reduces. -/
def qdiv (a b : ℚ) : ℚ := Rat.divInt (a.num * (b.den : Int)) ((a.den : Int) * b.num)

/-- Addition on `ℚ`, phrased via `Rat.divInt` so it kernel-reduces. -/
def qadd (a b : ℚ) : ℚ :=
  Rat.divInt (a.num * (b.den : Int) + b.num * (a.den : Int)) ((a.den : Int) * (b.den : Int))

/-- Floor of a rational, phrased via integer division so it kernel-reduces. -/
def qfloor (q : ℚ) : Int := q.num / (q.den : Int)

theorem qmul_eq (a b : ℚ) : qmul a b = a * b := by
  conv_rhs => rw [← Rat.num_divInt_den a, ← Rat.num_divInt_den b, Rat.divInt_mul_divInt']
  rfl

theorem qdiv_eq (a b : ℚ) : qdiv a b = a / b := by
  conv_rhs => rw [← Rat.num_divInt_den a, ← Rat.num_divInt_den b, Rat.divInt_div_divInt]
  rfl

theorem qadd_eq (a b : ℚ) : qadd a b = a + b := by
  conv_rhs =>
    rw [← Rat.num_divInt_den a, ← Rat.num_divInt_den b,
      Rat.divInt_add_divInt _ _ (by exact_mod_cast a.den_nz) (by exact_mod_cast b.den_nz)]
  rfl

theorem qfloor_eq (q : ℚ) : qfloor q = ⌊q⌋ := Rat.floor_def.symm

/-- Model of an `f32` value: an exact finite rational or a non-finite value. -/
inductive Float32 where
  | finite (q : ℚ)
  | posInf
  | negInf
  | nan
deriving DecidableEq

/-- Rust `a < b` on `f32` (`PartialOrd`): false whenever either side is NaN. -/
def Float32.flt : Float32 → Float32 → Bool
  | .finite a, .finite b => decide (a < b)
  | .finite _, .posInf => true
  | .negInf, .finite _ => true
  | .negInf, .posInf => true
  | _, _ => false

/-- Rust `a <= b` on `f32` (`PartialOrd`): false whenever either side is NaN. -/
def Float32.fle : Float32 → Float32 → Bool
  | .finite a, .finite b => decide (a ≤ b)
  | .finite _, .posInf => true
  | .negInf, .finite _ => true
  | .negInf, .negInf => true
  | .negInf, .posInf => true
  | .posInf, .posInf => true
  | _, _ => false

/-- Rust `a > b` on `f32`. -/
def Float32.fgt (a b : Float32) : Bool := Float32.flt b a

/-- Rust `f32::clamp(self, min, max)`: returns `min` if `self < min`, `max` if
`self > max`, otherwise `self`; in particular a NaN input is returned as is. -/
def Float32.fclamp (x lo hi : Float32) : Float32 :=
  if Float32.flt x lo then lo else if Float32.fgt x hi then hi else x

/-- Truncation of a rational toward zero (the rounding of Rust float-to-int casts). -/
def Float32.qtrunc (q : ℚ) : Int := if 0 ≤ q then qfloor q else -qfloor (-q)

/-- Rust `as u32` on an `f32`: saturating cast; NaN becomes 0, negative values
saturate to 0, values above `u32::MAX` saturate to `u32::MAX`. For `q < 0`,
`(qfloor q).toNat = 0`, which agrees with truncation toward zero followed by
saturation at 0, so `qfloor` is used directly in the finite case. -/
def Float32.toU32 : Float32 → Nat
  | .nan => 0
  | .negInf => 0
  | .posInf => 2 ^ 32 - 1
  | .finite q => min (qfloor q).toNat (2 ^ 32 - 1)

/-- Rust `as i32` on an `f32`: saturating cast truncating toward zero; NaN
becomes 0. -/
def Float32.toI32 : Float32 → Int
  | .nan => 0
  | .negInf => -(2 ^ 31)
  | .posInf => 2 ^ 31 - 1
  | .finite q => max (-(2 ^ 31)) (min (Float32.qtrunc q) (2 ^ 31 - 1))

/-- Rust `f32::round`: round half away from zero, on the exact rational model. -/
def Float32.f32round (q : ℚ) : Int :=
  if 0 ≤ q then qfloor (qadd q (Rat.divInt 1 2)) else -qfloor (qadd (-q) (Rat.divInt 1 2))

/-- Celsius-to-Fahrenheit step `temp_celsius * 9.0 / 5.0 + 32.0` of the source;
infinities and NaN propagate exactly as in IEEE 754 arithmetic. -/
def Float32.c2f : Float32 → Float32
  | .finite q => .finite (qadd (qdiv (qmul q 9) 5) 32)
  | .posInf => .posInf
  | .negInf => .negInf
  | .nan => .nan

/-- Sanity lemma: the finite case of `Float32.c2f` is exactly `q * 9 / 5 + 32`. -/
theorem Float32.c2f_finite (q : ℚ) :
    Float32.c2f (Float32.finite q) = Float32.finite (q * 9 / 5 + 32) := by
  simp [Float32.c2f, qadd_eq, qdiv_eq, qmul_eq]

/-- Temperature unit (`src/config.rs`). -/
inductive TemperatureUnit where
  | Celsius
  | Fahrenheit
deriving DecidableEq

/-- Sensor type (`src/config.rs`). -/
inductive SensorType where
  | Cpu
  | Gpu
deriving DecidableEq

/-- Error type of the application (`src/error.rs`); the `Io` variant's payload
is reduced to its message string. -/
inductive OcypusError where
  | Device (msg : String)
  | Sensor (msg : String)
  | Config (msg : String)
  | Io (msg : String)
  | HidApi (msg : String)
  | TemperatureParse (msg : String)
  | InvalidSensorType (msg : String)
deriving DecidableEq

/-- Device constant `REPORT_ID` (`src/config.rs`). -/
def REPORT_ID : Nat := 0x07

/-- Device constant `REPORT_LENGTH` (`src/config.rs`). -/
def REPORT_LENGTH : Nat := 64

/-- Canonical encoder `build_temperature_report` (`src/device.rs`). Bytes are
modelled as naturals below 256; the `as u8` narrowing casts are `% 256`. -/
def build_temperature_report (temp_celsius : Float32) (unit : TemperatureUnit) :
    Except OcypusError (List Nat) :=
  let report0 := (List.replicate REPORT_LENGTH 0).set 0 REPORT_ID
  let display_temp :=
    match unit with
    | TemperatureUnit.Celsius => temp_celsius
    | TemperatureUnit.Fahrenheit => Float32.c2f temp_celsius
  let clamped_temp := Float32.fclamp display_temp (Float32.finite 0) (Float32.finite 999)
  let temp_int := Float32.toU32 clamped_temp
  let report1 := report0.set 3 (temp_int / 100 % 256)
  let report2 := report1.set 4 (temp_int / 10 % 10 % 256)
  let report3 := report2.set 5 (temp_int % 10 % 256)
  Except.ok report3

/-- Projection returning the report of a successful encoder run (the canonical
encoder never fails, so the default branch is never taken). -/
def okReport (e : Except OcypusError (List Nat)) : List Nat :=
  match e with
  | Except.ok r => r
  | Except.error _ => []

/-- Digit bytes (offsets 3, 4, 5) of an encoder result, `none` on error. -/
def report_digits (e : Except OcypusError (List Nat)) : Option (Nat × Nat × Nat) :=
  match e with
  | Except.ok r => some (r.getD 3 0, r.getD 4 0, r.getD 5 0)
  | Except.error _ => none

/-- Legacy encoder `build_report` (`src/main.rs`): clamps the Celsius integer to
`[0, 99]` first, converts for the `'f'`/`'F'` unit with rounding, clamps the
display value to `[0, 212]`, and writes `0xff` marker bytes at offsets 1 and 2.
The display value is nonnegative after its clamp, so its decimal digits are
taken through `Int.toNat` and natural division, matching `i32` division. -/
def build_report (temp_celsius : Float32) (unit : Char) : List Nat :=
  let t0 := Float32.toI32 temp_celsius
  let temp_c : Int := if t0 < 0 then 0 else if t0 > 99 then 99 else t0
  let display0 : Int :=
    if unit = 'f' ∨ unit = 'F' then
      Float32.f32round (qadd (qdiv (qmul (temp_c : ℚ) 9) 5) 32)
    else temp_c
  let display_temp : Int := if display0 < 0 then 0 else if display0 > 212 then 212 else display0
  let d := display_temp.toNat
  let hundreds := d / 100
  let tens := d % 100 / 10
  let ones := d % 10
  ((((((List.replicate REPORT_LENGTH 0).set 0 REPORT_ID).set 1 0xff).set 2 0xff).set 3
    (hundreds % 256)).set 4 (tens % 256)).set 5 (ones % 256)

example : report_digits (build_temperature_report (Float32.finite (Rat.divInt 51 2))
    TemperatureUnit.Celsius) = some (0, 2, 5) := by decide

example : report_digits (build_temperature_report (Float32.finite 25)
    TemperatureUnit.Fahrenheit) = some (0, 7, 7) := by decide

example : report_digits (build_temperature_report (Float32.finite (-10))
    TemperatureUnit.Celsius) = some (0, 0, 0) := by decide

example : report_digits (build_temperature_report Float32.nan TemperatureUnit.Fahrenheit)
    = some (0, 0, 0) := by decide

example : (build_report (Float32.finite (Rat.divInt 51 2)) 'c').getD 4 0 = 2 := by decide

example : (build_report (Float32.finite 25) 'f').getD 4 0 = 7 := by decide

/-- Display pipeline of the canonical encoder (src/device.rs lines 100-108):
unit conversion, clamp of the converted value to `[0, 999]`, then `as u32`. -/
def display_value (temp_celsius : Float32) (unit : TemperatureUnit) : Nat :=
  Float32.toU32 (Float32.fclamp
    (match unit with
     | TemperatureUnit.Celsius => temp_celsius
     | TemperatureUnit.Fahrenheit => Float32.c2f temp_celsius)
    (Float32.finite 0) (Float32.finite 999))

theorem build_temperature_report_eq (t : Float32) (u : TemperatureUnit) :
    build_temperature_report t u = Except.ok (((((List.replicate REPORT_LENGTH 0).set 0
        REPORT_ID).set 3 (display_value t u / 100 % 256)).set 4
        (display_value t u / 10 % 10 % 256)).set 5 (display_value t u % 10 % 256)) := rfl

/-- Byte map of the canonical report layout. -/
theorem canonical_bytes (a b c i : Nat) :
    (((((List.replicate REPORT_LENGTH (0 : Nat)).set 0 REPORT_ID).set 3 a).set 4 b).set 5 c)[i]? =
      if i = 5 then some c else if i = 4 then some b else if i = 3 then some a
      else if i = 0 then some REPORT_ID else if i < 64 then some 0 else none := by
  simp only [List.getElem?_set, List.length_set, List.length_replicate, List.getElem?_replicate,
    REPORT_LENGTH]
  split_ifs <;> first | rfl | omega

/-- Bound on the clamp-then-cast pipeline: whatever the input float (finite or
not), the clamped display value is at most 999. -/
theorem toU32_fclamp_le (x : Float32) :
    Float32.toU32 (Float32.fclamp x (Float32.finite 0) (Float32.finite 999)) ≤ 999 := by
  cases x with
  | nan => decide
  | posInf => decide
  | negInf => decide
  | finite q =>
    rw [Float32.fclamp]
    by_cases h1 : Float32.flt (Float32.finite q) (Float32.finite 0) = true
    · rw [if_pos h1]; decide
    · rw [if_neg h1]
      by_cases h2 : Float32.fgt (Float32.finite q) (Float32.finite 999) = true
      · rw [if_pos h2]; decide
      · rw [if_neg h2]
        have hq9 : ¬ (999 : ℚ) < q := by
          simpa [Float32.fgt, Float32.flt] using h2
        have hfloor : ⌊q⌋ ≤ 999 := by
          have h := Int.floor_le_floor (α := ℚ) (le_of_not_lt hq9)
          have h999 : ⌊(999 : ℚ)⌋ = 999 := by norm_num
          omega
        rw [Float32.toU32, qfloor_eq]
        have ht : ⌊q⌋.toNat ≤ 999 := by omega
        exact le_trans (Nat.min_le_left _ _) ht

theorem display_value_le (t : Float32) (u : TemperatureUnit) : display_value t u ≤ 999 :=
  toU32_fclamp_le _

theorem report_digits_build (t : Float32) (u : TemperatureUnit) :
    report_digits (build_temperature_report t u) =
      some (display_value t u / 100, display_value t u / 10 % 10, display_value t u % 10) := by
  have hdv := display_value_le t u
  have e3 : display_value t u / 100 % 256 = display_value t u / 100 :=
    Nat.mod_eq_of_lt (by omega)
  have e4 : display_value t u / 10 % 10 % 256 = display_value t u / 10 % 10 :=
    Nat.mod_eq_of_lt (by omega)
  have e5 : display_value t u % 10 % 256 = display_value t u % 10 :=
    Nat.mod_eq_of_lt (by omega)
  rw [build_temperature_report_eq]
  simp only [report_digits, List.getD_eq_getElem?_getD, canonical_bytes]
  simp [e3, e4, e5]

/-- C1: for every finite Celsius input and every unit, the canonical encoder
returns a 64-byte report whose byte 0 is the report id `0x07`, whose bytes at
offsets 3, 4, 5 are the hundreds/tens/ones decimal digits (each in 0..9) of
the clamped display value, and whose every other byte is zero. -/
theorem C1_canonical_report_shape (q : ℚ) (u : TemperatureUnit) :
    ∃ r : List Nat, build_temperature_report (Float32.finite q) u = Except.ok r ∧
      r.length = 64 ∧
      r[0]? = some REPORT_ID ∧
      r[3]? = some (display_value (Float32.finite q) u / 100) ∧
      r[4]? = some (display_value (Float32.finite q) u / 10 % 10) ∧
      r[5]? = some (display_value (Float32.finite q) u % 10) ∧
      display_value (Float32.finite q) u / 100 ≤ 9 ∧
      display_value (Float32.finite q) u / 10 % 10 ≤ 9 ∧
      display_value (Float32.finite q) u % 10 ≤ 9 ∧
      (∀ i, i < 64 → i ≠ 0 → i ≠ 3 → i ≠ 4 → i ≠ 5 → r[i]? = some 0) := by
  have hdv := display_value_le (Float32.finite q) u
  have e3 : display_value (Float32.finite q) u / 100 % 256 =
      display_value (Float32.finite q) u / 100 := Nat.mod_eq_of_lt (by omega)
  have e4 : display_value (Float32.finite q) u / 10 % 10 % 256 =
      display_value (Float32.finite q) u / 10 % 10 := Nat.mod_eq_of_lt (by omega)
  have e5 : display_value (Float32.finite q) u % 10 % 256 =
      display_value (Float32.finite q) u % 10 := Nat.mod_eq_of_lt (by omega)
  refine ⟨_, build_temperature_report_eq _ _, ?_, ?_, ?_, ?_, ?_, by omega, by omega, by omega, ?_⟩
  · simp [REPORT_LENGTH]
  · rw [canonical_bytes]; norm_num
  · rw [canonical_bytes]; norm_num [e3]
  · rw [canonical_bytes]; norm_num [e4]
  · rw [canonical_bytes]; norm_num [e5]
  · intro i hlt h0 h3 h4 h5
    rw [canonical_bytes]
    split_ifs <;> first | rfl | omega

/-- Witness for C1: the zero-byte clause evaluated at offset 7 for 25.5 °C. -/
theorem C1_canonical_report_shape_witness :
    (okReport (build_temperature_report (Float32.finite (Rat.divInt 51 2))
      TemperatureUnit.Celsius))[7]? = some 0 := by
  obtain ⟨r, h1, -, -, -, -, -, -, -, -, hz⟩ :=
    C1_canonical_report_shape (Rat.divInt 51 2) TemperatureUnit.Celsius
  rw [h1]
  exact hz 7 (by decide) (by decide) (by decide) (by decide) (by decide)

/-- C2: the canonical encoder converts the Celsius input to the display unit
first and clamps the already-converted value: encoding `t` in Fahrenheit gives
the same digit bytes as encoding `t * 9 / 5 + 32` in Celsius; and the three
worked examples hold: 25.5 °C displays 025, 25 °C in Fahrenheit displays 077,
and -10 °C clamps to 000. -/
theorem C2_convert_then_clamp (q : ℚ) :
    report_digits (build_temperature_report (Float32.finite q) TemperatureUnit.Fahrenheit) =
      report_digits (build_temperature_report (Float32.finite (q * 9 / 5 + 32))
        TemperatureUnit.Celsius) ∧
    report_digits (build_temperature_report (Float32.finite (Rat.divInt 51 2))
      TemperatureUnit.Celsius) = some (0, 2, 5) ∧
    report_digits (build_temperature_report (Float32.finite 25)
      TemperatureUnit.Fahrenheit) = some (0, 7, 7) ∧
    report_digits (build_temperature_report (Float32.finite (-10))
      TemperatureUnit.Celsius) = some (0, 0, 0) := by
  refine ⟨?_, by decide, by decide, by decide⟩
  rw [← Float32.c2f_finite]
  rfl

/-- C3: the encoder is total: every `f32` input (finite, NaN, or ±infinity)
under either unit yields a well-formed 64-byte report whose digit bytes are
each in 0..9; NaN and -infinity display the lower clamp boundary 000 and
+infinity displays the upper clamp boundary 999. -/
theorem C3_total_never_fails (t : Float32) (u : TemperatureUnit) :
    build_temperature_report t u = Except.ok (okReport (build_temperature_report t u)) ∧
    (okReport (build_temperature_report t u)).length = 64 ∧
    report_digits (build_temperature_report t u) =
      some (display_value t u / 100, display_value t u / 10 % 10, display_value t u % 10) ∧
    display_value t u / 100 ≤ 9 ∧
    display_value t u / 10 % 10 ≤ 9 ∧
    display_value t u % 10 ≤ 9 ∧
    report_digits (build_temperature_report Float32.nan u) = some (0, 0, 0) ∧
    report_digits (build_temperature_report Float32.negInf u) = some (0, 0, 0) ∧
    report_digits (build_temperature_report Float32.posInf u) = some (9, 9, 9) := by
  have hdv := display_value_le t u
  refine ⟨?_, ?_, report_digits_build t u, by omega, by omega, by omega, ?_, ?_, ?_⟩
  · rw [build_temperature_report_eq]; rfl
  · rw [build_temperature_report_eq]; simp [okReport, REPORT_LENGTH]
  · cases u <;> decide
  · cases u <;> decide
  · cases u <;> decide

/-- Display integer of the legacy encoder (`src/main.rs` lines 159-183): the
nonnegative value whose decimal digits are written at offsets 3-5. -/
def legacy_display (temp_celsius : Float32) (unit : Char) : Nat :=
  let t0 := Float32.toI32 temp_celsius
  let temp_c : Int := if t0 < 0 then 0 else if t0 > 99 then 99 else t0
  let display0 : Int :=
    if unit = 'f' ∨ unit = 'F' then
      Float32.f32round (qadd (qdiv (qmul (temp_c : ℚ) 9) 5) 32)
    else temp_c
  let display_temp : Int := if display0 < 0 then 0 else if display0 > 212 then 212 else display0
  display_temp.toNat

theorem build_report_eq (t : Float32) (u : Char) :
    build_report t u = ((((((List.replicate REPORT_LENGTH 0).set 0 REPORT_ID).set 1 0xff).set 2
      0xff).set 3 (legacy_display t u / 100 % 256)).set 4
      (legacy_display t u % 100 / 10 % 256)).set 5 (legacy_display t u % 10 % 256) := rfl

set_option maxHeartbeats 1600000 in
/-- Byte map of the legacy report layout. -/
theorem legacy_bytes (a b c i : Nat) :
    (((((((List.replicate REPORT_LENGTH (0 : Nat)).set 0 REPORT_ID).set 1 0xff).set 2 0xff).set 3
        a).set 4 b).set 5 c)[i]? =
      if i = 5 then some c else if i = 4 then some b else if i = 3 then some a
      else if i = 2 then some 0xff else if i = 1 then some 0xff
      else if i = 0 then some REPORT_ID else if i < 64 then some 0 else none := by
  simp only [List.getElem?_set, List.length_set, List.length_replicate, List.getElem?_replicate,
    REPORT_LENGTH]
  split_ifs <;> first | rfl | omega

theorem legacy_display_c (q : ℚ) (h0 : 0 ≤ q) (h99 : q ≤ 99) :
    legacy_display (Float32.finite q) 'c' = ⌊q⌋.toNat := by
  have hf0 : 0 ≤ ⌊q⌋ := Int.floor_nonneg.mpr h0
  have hf99 : ⌊q⌋ ≤ 99 := by
    have h := Int.floor_le_floor (α := ℚ) h99
    have h2 : ⌊(99 : ℚ)⌋ = 99 := by norm_num
    omega
  have ht : Float32.toI32 (Float32.finite q) = ⌊q⌋ := by
    rw [Float32.toI32, Float32.qtrunc, if_pos h0, qfloor_eq]
    omega
  simp only [legacy_display, ht]
  rw [if_neg (show ¬ ⌊q⌋ < 0 by omega), if_neg (show ¬ ⌊q⌋ > 99 by omega),
    if_neg (show ¬ ('c' = 'f' ∨ 'c' = 'F') by decide)]
  split_ifs <;> omega

theorem display_value_c (q : ℚ) (h0 : 0 ≤ q) (h99 : q ≤ 99) :
    display_value (Float32.finite q) TemperatureUnit.Celsius = ⌊q⌋.toNat := by
  have hc1 : ¬ (Float32.flt (Float32.finite q) (Float32.finite 0) = true) := by
    simp [Float32.flt]
    linarith
  have hc2 : ¬ (Float32.fgt (Float32.finite q) (Float32.finite 999) = true) := by
    simp [Float32.fgt, Float32.flt]
    linarith
  have hf99 : ⌊q⌋ ≤ 99 := by
    have h := Int.floor_le_floor (α := ℚ) h99
    have h2 : ⌊(99 : ℚ)⌋ = 99 := by norm_num
    omega
  simp only [display_value, Float32.fclamp]
  rw [if_neg hc1, if_neg hc2, Float32.toU32, qfloor_eq]
  omega

/-- C9: for every finite Celsius input in `[0, 99]`, the legacy encoder
`build_report(t, 'c')` and the canonical encoder agree byte for byte except at
offsets 1 and 2, where the legacy variant writes the `0xff` markers and the
canonical variant leaves zeros; in particular the report id and the three
digit bytes coincide. -/
theorem C9_legacy_agrees (q : ℚ) (h0 : 0 ≤ q) (h99 : q ≤ 99) :
    (build_report (Float32.finite q) 'c')[1]? = some 0xff ∧
    (build_report (Float32.finite q) 'c')[2]? = some 0xff ∧
    (okReport (build_temperature_report (Float32.finite q) TemperatureUnit.Celsius))[1]? =
      some 0 ∧
    (okReport (build_temperature_report (Float32.finite q) TemperatureUnit.Celsius))[2]? =
      some 0 ∧
    (∀ i, i ≠ 1 → i ≠ 2 →
      (build_report (Float32.finite q) 'c')[i]? =
        (okReport (build_temperature_report (Float32.finite q) TemperatureUnit.Celsius))[i]?) := by
  have hld := legacy_display_c q h0 h99
  have hdv := display_value_c q h0 h99
  have hb : ⌊q⌋.toNat ≤ 99 := by
    have h := Int.floor_le_floor (α := ℚ) h99
    have h2 : ⌊(99 : ℚ)⌋ = 99 := by norm_num
    omega
  rw [build_report_eq, build_temperature_report_eq, hld, hdv]
  have hdig : ⌊q⌋.toNat % 100 / 10 = ⌊q⌋.toNat / 10 % 10 := by omega
  refine ⟨?_, ?_, ?_, ?_, ?_⟩
  · rw [legacy_bytes]; norm_num
  · rw [legacy_bytes]; norm_num
  · show (((((List.replicate REPORT_LENGTH 0).set 0 REPORT_ID).set 3 _).set 4 _).set 5 _)[1]? = _
    rw [canonical_bytes]; norm_num
  · show (((((List.replicate REPORT_LENGTH 0).set 0 REPORT_ID).set 3 _).set 4 _).set 5 _)[2]? = _
    rw [canonical_bytes]; norm_num
  · intro i h1 h2
    show _ = (((((List.replicate REPORT_LENGTH 0).set 0 REPORT_ID).set 3 _).set 4 _).set 5 _)[i]?
    rw [legacy_bytes, canonical_bytes, hdig]
    split_ifs <;> first | rfl | omega

/-- Witness for C9: at 25.5 °C the two encoders produce the same byte at
offset 3 and the legacy marker byte is present at offset 1. -/
theorem C9_legacy_agrees_witness :
    (build_report (Float32.finite (Rat.divInt 51 2)) 'c')[3]? =
      (okReport (build_temperature_report (Float32.finite (Rat.divInt 51 2))
        TemperatureUnit.Celsius))[3]? ∧
    (build_report (Float32.finite (Rat.divInt 51 2)) 'c')[1]? = some 0xff := by
  obtain ⟨hm, -, -, -, h⟩ := C9_legacy_agrees (Rat.divInt 51 2) (by decide) (by decide)
  exact ⟨h 3 (by decide) (by decide), hm⟩

/-- Accumulation loop of `extract_number` (`src/sensor/gpu_sensor.rs` lines
141-159 and `src/gpu_sensor.rs` lines 73-87): `buf` is the accumulated
characters and `seen_digit` the flag; Rust's `is_ascii_digit` is
`Char.isDigit`, and the mid-loop `break` is the early return of `buf`. -/
def extract_go : List Char → List Char → Bool → List Char
  | [], buf, _ => buf
  | c :: rest, buf, seen_digit =>
    if c.isDigit || (c == '.' && seen_digit) then extract_go rest (buf ++ [c]) true
    else if seen_digit then buf
    else extract_go rest buf seen_digit

/-- Model of `extract_number`: the first numeric run of the string, or `none`
if no digit occurs. -/
def extract_number (s : String) : Option String :=
  let buf := extract_go s.data [] false
  if buf.isEmpty then none else some (String.mk buf)

/-- Extraction rule exactly as the claim words it: accumulate digits and at
most one embedded decimal point that appears only after at least one digit has
been seen; stop at the first character that cannot be accumulated once digit
accumulation has begun; `none` if no digit was seen. -/
def extract_go_claim : List Char → List Char → Bool → Bool → List Char
  | [], buf, _, _ => buf
  | c :: rest, buf, seen_digit, seen_dot =>
    if c.isDigit then extract_go_claim rest (buf ++ [c]) true seen_dot
    else if c == '.' && seen_digit && !seen_dot then extract_go_claim rest (buf ++ [c]) seen_digit true
    else if seen_digit then buf
    else extract_go_claim rest buf seen_digit seen_dot

/-- Claim-side extraction function (at most one decimal point accumulated). -/
def extract_number_claim (s : String) : Option String :=
  let buf := extract_go_claim s.data [] false false
  if buf.isEmpty then none else some (String.mk buf)

theorem extract_go_true (l buf : List Char) :
    extract_go l buf true = buf ++ l.takeWhile (fun c => c.isDigit || c == '.') := by
  induction l generalizing buf with
  | nil => simp [extract_go]
  | cons c rest ih =>
    by_cases h : (c.isDigit || (c == '.' && true)) = true
    · rw [extract_go, if_pos h, ih,
        List.takeWhile_cons_of_pos (p := fun c : Char => c.isDigit || c == '.') (by simpa using h)]
      simp
    · rw [extract_go, if_neg h, if_pos rfl,
        List.takeWhile_cons_of_neg (p := fun c : Char => c.isDigit || c == '.') (by simpa using h)]
      simp

theorem extract_go_false (l buf : List Char) :
    extract_go l buf false =
      buf ++ (l.dropWhile (fun c => !c.isDigit)).takeWhile (fun c => c.isDigit || c == '.') := by
  induction l generalizing buf with
  | nil => simp [extract_go]
  | cons c rest ih =>
    by_cases h : c.isDigit
    · rw [extract_go, if_pos (by simp [h]), extract_go_true,
        List.dropWhile_cons_of_neg (p := fun c : Char => !c.isDigit) (by simp [h]),
        List.takeWhile_cons_of_pos (p := fun c : Char => c.isDigit || c == '.') (by simp [h])]
      simp
    · rw [extract_go, if_neg (by simp [h]), if_neg (by simp), ih,
        List.dropWhile_cons_of_pos (p := fun c : Char => !c.isDigit) (by simp [h])]

theorem numeric_run_empty_iff (l : List Char) :
    ((l.dropWhile (fun c => !c.isDigit)).takeWhile (fun c => c.isDigit || c == '.')) = [] ↔
      ∀ c ∈ l, c.isDigit = false := by
  constructor
  · intro h
    by_cases hd : l.dropWhile (fun c => !c.isDigit) = []
    · intro c hc
      have h2 := List.dropWhile_eq_nil_iff.mp hd c hc
      simpa using h2
    · exfalso
      obtain ⟨d, l2, hdl⟩ := List.exists_cons_of_ne_nil hd
      have hnd := List.head?_dropWhile_not (fun c : Char => !c.isDigit) l
      rw [hdl] at hnd
      simp only [List.head?_cons] at hnd
      have hdig : d.isDigit = true := by simpa using hnd
      rw [hdl, List.takeWhile_cons_of_pos (p := fun c : Char => c.isDigit || c == '.')
        (by simp [hdig])] at h
      exact List.cons_ne_nil _ _ h
  · intro h
    have hd : l.dropWhile (fun c => !c.isDigit) = [] :=
      List.dropWhile_eq_nil_iff.mpr (fun c hc => by simp [h c hc])
    rw [hd]
    rfl

/-- C4 (amended): `extract_number` scans left to right, skips characters up to
the first ASCII digit, then accumulates the maximal run of digits and decimal
points (a decimal point is accumulated whenever a digit has been seen, even if
one was already taken), stops at the first other character, and returns `none`
exactly when the string contains no digit; the claim's four examples hold. -/
theorem C4_extract_number_amended (s : String) :
    extract_number s =
      (if ((s.data.dropWhile (fun c => !c.isDigit)).takeWhile
          (fun c => c.isDigit || c == '.')).isEmpty then none
       else some (String.mk ((s.data.dropWhile (fun c => !c.isDigit)).takeWhile
          (fun c => c.isDigit || c == '.')))) ∧
    (extract_number s = none ↔ ∀ c ∈ s.data, c.isDigit = false) ∧
    extract_number "Temperature: 45.5°C" = some "45.5" ∧
    extract_number "45°C" = some "45" ∧
    extract_number "No numbers here" = none ∧
    extract_number "" = none := by
  have hchar : extract_number s =
      (if ((s.data.dropWhile (fun c => !c.isDigit)).takeWhile
          (fun c => c.isDigit || c == '.')).isEmpty then none
       else some (String.mk ((s.data.dropWhile (fun c => !c.isDigit)).takeWhile
          (fun c => c.isDigit || c == '.')))) := by
    simp only [extract_number, extract_go_false, List.nil_append]
  refine ⟨hchar, ?_, by decide, by decide, by decide, by decide⟩
  rw [hchar]
  by_cases he : ((s.data.dropWhile (fun c => !c.isDigit)).takeWhile
      (fun c => c.isDigit || c == '.')).isEmpty = true
  · rw [if_pos he]
    simp only [true_iff]
    exact fun c hc => (numeric_run_empty_iff s.data).mp (by simpa using he) c hc
  · rw [if_neg he]
    constructor
    · intro h
      simp at h
    · intro hall
      exact absurd (by simp [(numeric_run_empty_iff s.data).mpr hall] : _) he

/-- Counterexample to C4 as stated: on `"4.5.6"` the code accumulates a second
decimal point (the loop admits a dot whenever a digit has been seen), while
the claim's at-most-one-decimal-point rule stops at the second dot. -/
theorem C4_extract_number_counterexample :
    extract_number "4.5.6" = some "4.5.6" ∧
    extract_number_claim "4.5.6" = some "4.5" ∧
    extract_number "4.5.6" ≠ extract_number_claim "4.5.6" :=
  ⟨by decide, by decide, by decide⟩

/-- Witness for C4: the no-digit clause applied at a concrete string. -/
theorem C4_extract_number_amended_witness :
    extract_number "No numbers here" = none := by
  obtain ⟨-, h, -⟩ := C4_extract_number_amended "No numbers here"
  exact h.mpr (by decide)

/-- Outcome of running an external command: the binary may be missing, or it
runs and exits with a success flag and captured standard output. -/
inductive CommandOutcome where
  | unavailable
  | ran (success : Bool) (stdout : String)
deriving DecidableEq

/-- Drop `label` as a literal prefix of `text`, or fail. -/
def dropLabel : List Char → List Char → Option (List Char)
  | [], text => some text
  | _ :: _, [] => none
  | l :: ls, c :: cs => if c = l then dropLabel ls cs else none

/-- Match, at the start of `rest`, the tail `\s*\+([0-9]+(?:\.[0-9]+)?)°C` of
the CPU regexes (whitespace run, a plus sign, captured digits with an optional
fraction, then `°C`), returning the capture. The greedy digit runs need no
backtracking: a shorter run would have to be followed by a digit, which can
match neither `.` nor `°`, so maximal runs are faithful to the regex. -/
def matchNumberCapture (rest : List Char) : Option (List Char) :=
  match rest.dropWhile (fun c => c.isWhitespace) with
  | '+' :: r2 =>
    let d1 := r2.takeWhile (fun c => c.isDigit)
    if d1.isEmpty then none
    else
      match r2.dropWhile (fun c => c.isDigit) with
      | '.' :: r4 =>
        let d2 := r4.takeWhile (fun c => c.isDigit)
        if d2.isEmpty then none
        else
          match r4.dropWhile (fun c => c.isDigit) with
          | '°' :: 'C' :: _ => some (d1 ++ '.' :: d2)
          | _ => none
      | '°' :: 'C' :: _ => some d1
      | _ => none
  | _ => none

/-- Leftmost-match search of one CPU pattern: try the literal `label` followed
by `matchNumberCapture` at every position of the text, left to right, as the
regex engine's leftmost-match semantics does. -/
def scanFor (label : List Char) : List Char → Option (List Char)
  | [] =>
    match dropLabel label [] with
    | some rest => matchNumberCapture rest
    | none => none
  | c :: cs =>
    match dropLabel label (c :: cs) with
    | some rest =>
      match matchNumberCapture rest with
      | some cap => some cap
      | none => scanFor label cs
    | none => scanFor label cs

/-- Numeric value of a decimal digit character. -/
def digitVal (c : Char) : Nat := c.toNat - 48

/-- Natural number denoted by a list of decimal digits. -/
def natOfDigits (l : List Char) : Nat := l.foldl (fun a c => 10 * a + digitVal c) 0

/-- Exact rational value of a captured literal `digits(.digits)?`, modelling
Rust's `str::parse::<f32>` on the only shapes the regexes can capture (on
those shapes the parse never fails; `f32` rounding is not modelled). -/
def parseDecimal (l : List Char) : ℚ :=
  let ip := l.takeWhile (fun c => c.isDigit)
  match l.dropWhile (fun c => c.isDigit) with
  | '.' :: frac =>
    Rat.divInt ((natOfDigits ip * 10 ^ frac.length + natOfDigits frac : Nat) : Int)
      ((10 ^ frac.length : Nat) : Int)
  | _ => ((natOfDigits ip : Nat) : ℚ)

/-- Literal label parts of the four CPU regexes of `src/sensor/cpu_sensor.rs`,
in the order the code tries them. -/
def cpu_pattern_labels : List (List Char) :=
  ["Package id 0:".data, "Tdie:".data, "Tctl:".data, "temp1:".data]

/-- Pattern loop of `CpuSensor::get_temperature`: first matching pattern wins;
a typed Sensor error if none matches. -/
def tryPatterns : List (List Char) → List Char → Except OcypusError ℚ
  | [], _ => Except.error (OcypusError.Sensor "CPU temperature not found in sensors output")
  | p :: ps, text =>
    match scanFor p text with
    | some cap => Except.ok (parseDecimal cap)
    | none => tryPatterns ps text

/-- Model of `CpuSensor::get_temperature` (`src/sensor/cpu_sensor.rs` lines
10-59): run `sensors` (the outcome is the parameter `cmd`), fail with a Sensor
error when the command is missing or exits non-zero, then try the four
patterns in order on the captured output. -/
def CpuSensor.get_temperature (cmd : CommandOutcome) : Except OcypusError ℚ :=
  match cmd with
  | CommandOutcome.unavailable =>
    Except.error (OcypusError.Sensor "Failed to execute sensors command")
  | CommandOutcome.ran false _ =>
    Except.error (OcypusError.Sensor "sensors command returned non-zero exit status")
  | CommandOutcome.ran true out => tryPatterns cpu_pattern_labels out.data

/-- C5: CPU extraction tries the four patterns in the fixed order Package id
0, Tdie, Tctl, temp1, returning the parsed capture of the first that matches;
a missing command, a non-zero exit, or output matching no pattern each yield a
typed Sensor error; and a successful value only ever arises from an actual
pattern match (nothing is fabricated). -/
theorem C5_cpu_fixed_order (s : String) :
    (CpuSensor.get_temperature CommandOutcome.unavailable =
      Except.error (OcypusError.Sensor "Failed to execute sensors command")) ∧
    (CpuSensor.get_temperature (CommandOutcome.ran false s) =
      Except.error (OcypusError.Sensor "sensors command returned non-zero exit status")) ∧
    (∀ cap, scanFor "Package id 0:".data s.data = some cap →
      CpuSensor.get_temperature (CommandOutcome.ran true s) = Except.ok (parseDecimal cap)) ∧
    (∀ cap, scanFor "Package id 0:".data s.data = none →
      scanFor "Tdie:".data s.data = some cap →
      CpuSensor.get_temperature (CommandOutcome.ran true s) = Except.ok (parseDecimal cap)) ∧
    (∀ cap, scanFor "Package id 0:".data s.data = none →
      scanFor "Tdie:".data s.data = none →
      scanFor "Tctl:".data s.data = some cap →
      CpuSensor.get_temperature (CommandOutcome.ran true s) = Except.ok (parseDecimal cap)) ∧
    (∀ cap, scanFor "Package id 0:".data s.data = none →
      scanFor "Tdie:".data s.data = none →
      scanFor "Tctl:".data s.data = none →
      scanFor "temp1:".data s.data = some cap →
      CpuSensor.get_temperature (CommandOutcome.ran true s) = Except.ok (parseDecimal cap)) ∧
    ((∀ p ∈ cpu_pattern_labels, scanFor p s.data = none) →
      CpuSensor.get_temperature (CommandOutcome.ran true s) =
        Except.error (OcypusError.Sensor "CPU temperature not found in sensors output")) ∧
    (∀ v, CpuSensor.get_temperature (CommandOutcome.ran true s) = Except.ok v →
      ∃ p ∈ cpu_pattern_labels, ∃ cap, scanFor p s.data = some cap ∧ v = parseDecimal cap) := by
  refine ⟨rfl, rfl, ?_, ?_, ?_, ?_, ?_, ?_⟩
  · intro cap h1
    simp [CpuSensor.get_temperature, cpu_pattern_labels, tryPatterns, h1]
  · intro cap h1 h2
    simp [CpuSensor.get_temperature, cpu_pattern_labels, tryPatterns, h1, h2]
  · intro cap h1 h2 h3
    simp [CpuSensor.get_temperature, cpu_pattern_labels, tryPatterns, h1, h2, h3]
  · intro cap h1 h2 h3 h4
    simp [CpuSensor.get_temperature, cpu_pattern_labels, tryPatterns, h1, h2, h3, h4]
  · intro h
    have h1 := h "Package id 0:".data (by simp [cpu_pattern_labels])
    have h2 := h "Tdie:".data (by simp [cpu_pattern_labels])
    have h3 := h "Tctl:".data (by simp [cpu_pattern_labels])
    have h4 := h "temp1:".data (by simp [cpu_pattern_labels])
    simp [CpuSensor.get_temperature, cpu_pattern_labels, tryPatterns, h1, h2, h3, h4]
  · intro v hv
    rw [CpuSensor.get_temperature] at hv
    rcases e1 : scanFor "Package id 0:".data s.data with - | cap1
    · rcases e2 : scanFor "Tdie:".data s.data with - | cap2
      · rcases e3 : scanFor "Tctl:".data s.data with - | cap3
        · rcases e4 : scanFor "temp1:".data s.data with - | cap4
          · simp [cpu_pattern_labels, tryPatterns, e1, e2, e3, e4] at hv
          · refine ⟨"temp1:".data, by simp [cpu_pattern_labels], cap4, e4, ?_⟩
            simp [cpu_pattern_labels, tryPatterns, e1, e2, e3, e4] at hv
            exact hv.symm
        · refine ⟨"Tctl:".data, by simp [cpu_pattern_labels], cap3, e3, ?_⟩
          simp [cpu_pattern_labels, tryPatterns, e1, e2, e3] at hv
          exact hv.symm
      · refine ⟨"Tdie:".data, by simp [cpu_pattern_labels], cap2, e2, ?_⟩
        simp [cpu_pattern_labels, tryPatterns, e1, e2] at hv
        exact hv.symm
    · refine ⟨"Package id 0:".data, by simp [cpu_pattern_labels], cap1, e1, ?_⟩
      simp [cpu_pattern_labels, tryPatterns, e1] at hv
      exact hv.symm

/-- Witness for C5: on output matching only the Tdie pattern, the second
pattern's capture 52.3 is returned. -/
theorem C5_cpu_fixed_order_witness :
    CpuSensor.get_temperature (CommandOutcome.ran true "Tdie: +52.3°C") =
      Except.ok (Rat.divInt 523 10) := by
  obtain ⟨-, -, -, h, -⟩ := C5_cpu_fixed_order "Tdie: +52.3°C"
  have h2 := h "52.3".data (by decide) (by decide)
  rw [h2]
  congr 1

/-- Application configuration (`src/config.rs` lines 100-109); the update
interval is kept in whole seconds (`Duration::as_secs`). -/
structure Config where
  temperature_unit : TemperatureUnit
  update_interval : Nat
  high_threshold : Float32
  low_threshold : Float32
  alerts_enabled : Bool
  sensor_type : SensorType
deriving DecidableEq

/-- Alert emitted by the threshold check (the code logs a warning line). -/
inductive Alert where
  | high
  | low
deriving DecidableEq

/-- Model of `TemperatureMonitor::check_thresholds` (`src/monitor.rs` lines
61-77), returning the emitted alert, if any. -/
def check_thresholds (temp : Float32) (config : Config) : Option Alert :=
  if !config.alerts_enabled then none
  else if Float32.fgt temp config.high_threshold then some Alert.high
  else if Float32.flt temp config.low_threshold then some Alert.low
  else none

/-- Order fact used by the threshold check: under an ordered pair of
thresholds, a reading above the high threshold is never below the low one. -/
theorem Float32.not_lt_low_of_gt_high {lo hi t : Float32}
    (hlh : Float32.fle lo hi = true) (hgt : Float32.fgt t hi = true) :
    Float32.flt t lo = false := by
  cases lo <;> cases hi <;> cases t <;>
    simp_all [Float32.fle, Float32.fgt, Float32.flt] <;> linarith

/-- C6: with alerts enabled and validated thresholds, the check emits a high
alert exactly when the raw reading strictly exceeds the high threshold, a low
alert exactly when it is strictly below the low threshold, and nothing
otherwise; with alerts disabled it never emits anything. -/
theorem C6_threshold_check (temp : Float32) (c : Config)
    (hv : Float32.fle c.low_threshold c.high_threshold = true) :
    (c.alerts_enabled = false → check_thresholds temp c = none) ∧
    (c.alerts_enabled = true →
      ((check_thresholds temp c = some Alert.high ↔
          Float32.fgt temp c.high_threshold = true) ∧
       (check_thresholds temp c = some Alert.low ↔
          Float32.flt temp c.low_threshold = true) ∧
       (check_thresholds temp c = none ↔
          (Float32.fgt temp c.high_threshold = false ∧
           Float32.flt temp c.low_threshold = false)))) := by
  constructor
  · intro h
    simp [check_thresholds, h]
  · intro h
    by_cases hgt : Float32.fgt temp c.high_threshold = true
    · have hlow := Float32.not_lt_low_of_gt_high hv hgt
      simp [check_thresholds, h, hgt, hlow]
    · by_cases hlt : Float32.flt temp c.low_threshold = true
      · simp [check_thresholds, h, hgt, hlt]
      · simp [check_thresholds, h, hgt, hlt]

/-- Witness for C6 at the spec's scenario high=80, low=20: 85 gives a high
alert, 15 a low alert, 50 none, and with alerts disabled even 1000 gives none. -/
theorem C6_threshold_check_witness :
    check_thresholds (Float32.finite 85)
      ⟨TemperatureUnit.Celsius, 1, Float32.finite 80, Float32.finite 20, true, SensorType.Cpu⟩ =
      some Alert.high ∧
    check_thresholds (Float32.finite 15)
      ⟨TemperatureUnit.Celsius, 1, Float32.finite 80, Float32.finite 20, true, SensorType.Cpu⟩ =
      some Alert.low ∧
    check_thresholds (Float32.finite 50)
      ⟨TemperatureUnit.Celsius, 1, Float32.finite 80, Float32.finite 20, true, SensorType.Cpu⟩ =
      none ∧
    check_thresholds (Float32.finite 1000)
      ⟨TemperatureUnit.Celsius, 1, Float32.finite 80, Float32.finite 20, false, SensorType.Cpu⟩ =
      none := by
  refine ⟨?_, ?_, ?_, ?_⟩
  · exact ((C6_threshold_check (Float32.finite 85) _ (by decide)).2 rfl).1.mpr (by decide)
  · exact ((C6_threshold_check (Float32.finite 15) _ (by decide)).2 rfl).2.1.mpr (by decide)
  · exact ((C6_threshold_check (Float32.finite 50) _ (by decide)).2 rfl).2.2.mpr (by decide)
  · exact (C6_threshold_check (Float32.finite 1000) _ (by decide)).1 rfl

/-- Model of `Config::validate` (`src/config.rs` lines 138-152): reject when
`high_threshold <= low_threshold` or the interval is zero seconds, otherwise
return the unchanged configuration. -/
def Config.validate (c : Config) : Except OcypusError Config :=
  if Float32.fle c.high_threshold c.low_threshold then
    Except.error (OcypusError.Config "High threshold must be greater than low threshold")
  else if c.update_interval = 0 then
    Except.error (OcypusError.Config "Update interval must be greater than 0 seconds")
  else Except.ok c

/-- Counterexample to C7 as stated: a config with a NaN high threshold passes
validation (the rejection test `high <= low` is false on NaN), yet
`high > low` is also false, so "validate succeeds exactly when
high_threshold > low_threshold and interval > 0" fails at this config. -/
theorem C7_validate_counterexample :
    Config.validate ⟨TemperatureUnit.Celsius, 1, Float32.nan, Float32.finite 20, false,
        SensorType.Cpu⟩ =
      Except.ok ⟨TemperatureUnit.Celsius, 1, Float32.nan, Float32.finite 20, false,
        SensorType.Cpu⟩ ∧
    Float32.fgt Float32.nan (Float32.finite 20) = false :=
  ⟨rfl, by decide⟩

/-- Totality of the float order away from NaN: `<=` is false exactly when `>`
holds. -/
theorem Float32.fle_false_iff_fgt {a b : Float32} (ha : a ≠ Float32.nan)
    (hb : b ≠ Float32.nan) :
    Float32.fle a b = false ↔ Float32.fgt a b = true := by
  cases a <;> cases b <;> simp_all [Float32.fle, Float32.fgt, Float32.flt]

/-- C7 (amended): for every config whose thresholds are comparable (neither is
NaN), validate succeeds — returning the unchanged config — exactly when
`high_threshold > low_threshold` and the update interval is positive, and any
violation is rejected with a typed Config error. -/
theorem C7_validate_amended (c : Config) (h1 : c.high_threshold ≠ Float32.nan)
    (h2 : c.low_threshold ≠ Float32.nan) :
    (Config.validate c = Except.ok c ↔
      (Float32.fgt c.high_threshold c.low_threshold = true ∧ 0 < c.update_interval)) ∧
    (Config.validate c = Except.ok c ∨
      ∃ msg, Config.validate c = Except.error (OcypusError.Config msg)) := by
  rw [Config.validate]
  by_cases hle : Float32.fle c.high_threshold c.low_threshold = true
  · rw [if_pos hle]
    constructor
    · constructor
      · intro h
        exact Except.noConfusion h
      · rintro ⟨hgt, -⟩
        rw [← Float32.fle_false_iff_fgt h1 h2] at hgt
        rw [hgt] at hle
        exact absurd hle (Bool.false_ne_true)
    · exact Or.inr ⟨_, rfl⟩
  · rw [if_neg hle]
    have hgt : Float32.fgt c.high_threshold c.low_threshold = true :=
      (Float32.fle_false_iff_fgt h1 h2).mp (by simpa using hle)
    by_cases hz : c.update_interval = 0
    · rw [if_pos hz]
      refine ⟨?_, Or.inr ⟨_, rfl⟩⟩
      constructor
      · intro h
        exact Except.noConfusion h
      · rintro ⟨-, hpos⟩
        omega
    · rw [if_neg hz]
      exact ⟨⟨fun _ => ⟨hgt, by omega⟩, fun _ => rfl⟩, Or.inl rfl⟩

/-- Witness for C7: the default configuration (high 80, low 20, interval 1)
validates to itself. -/
theorem C7_validate_amended_witness :
    Config.validate ⟨TemperatureUnit.Celsius, 1, Float32.finite 80, Float32.finite 20, false,
        SensorType.Cpu⟩ =
      Except.ok ⟨TemperatureUnit.Celsius, 1, Float32.finite 80, Float32.finite 20, false,
        SensorType.Cpu⟩ :=
  (C7_validate_amended _ (by decide) (by decide)).1.mpr ⟨by decide, by decide⟩

/-- Result of the underlying HID `device.write` call. -/
inductive WriteOutcome where
  | ok (bytes_written : Nat)
  | err (msg : String)
deriving DecidableEq

/-- Device manager state (`src/device.rs` lines 7-10): `device` is the
optionally open handle (`Option<HidDevice>`); the handle carries no data in
the model. -/
structure DeviceManager where
  device : Option Unit
deriving DecidableEq

/-- Model of `DeviceManager::send_temperature` (`src/device.rs` lines 48-76):
the outcome of the underlying write is the parameter `write`; the result pairs
the returned `Result` with the manager state after the call (the function
never replaces the handle). A short write is only logged, not an error. -/
def DeviceManager.send_temperature (dm : DeviceManager) (temp_celsius : Float32)
    (unit : TemperatureUnit) (write : WriteOutcome) :
    Except OcypusError Unit × DeviceManager :=
  match dm.device with
  | none => (Except.error (OcypusError.Device "Device not connected"), dm)
  | some _ =>
    match build_temperature_report temp_celsius unit with
    | Except.error e => (Except.error e, dm)
    | Except.ok _report =>
      match write with
      | WriteOutcome.ok _n => (Except.ok (), dm)
      | WriteOutcome.err e =>
        (Except.error (OcypusError.Device ("Failed to write to device: " ++ e)), dm)

/-- C8: on a connected device, `send_temperature` succeeds whenever the
underlying write does not error — including short writes of fewer than the
64-byte report length — and returns a typed Device error exactly when the
write errors; the manager state is unchanged either way. -/
theorem C8_send_write_result (dm : DeviceManager) (t : Float32) (u : TemperatureUnit)
    (hc : dm.device = some ()) :
    (∀ n, DeviceManager.send_temperature dm t u (WriteOutcome.ok n) = (Except.ok (), dm)) ∧
    (∀ n, n < REPORT_LENGTH →
      DeviceManager.send_temperature dm t u (WriteOutcome.ok n) = (Except.ok (), dm)) ∧
    (∀ e, DeviceManager.send_temperature dm t u (WriteOutcome.err e) =
      (Except.error (OcypusError.Device ("Failed to write to device: " ++ e)), dm)) ∧
    (∀ w, (DeviceManager.send_temperature dm t u w).1 = Except.ok () ↔
      ∃ n, w = WriteOutcome.ok n) := by
  have hb := build_temperature_report_eq t u
  refine ⟨?_, ?_, ?_, ?_⟩
  · intro n
    rw [DeviceManager.send_temperature.eq_def, hc, hb]
  · intro n _
    rw [DeviceManager.send_temperature.eq_def, hc, hb]
  · intro e
    rw [DeviceManager.send_temperature.eq_def, hc, hb]
  · intro w
    cases w with
    | ok n =>
      rw [DeviceManager.send_temperature.eq_def, hc, hb]
      simp
    | err e =>
      rw [DeviceManager.send_temperature.eq_def, hc, hb]
      simp

/-- Witness for C8: with a connected handle, a short write of 10 of 64 bytes
still succeeds, and an erroring write yields the typed Device error. -/
theorem C8_send_write_result_witness :
    DeviceManager.send_temperature ⟨some ()⟩ (Float32.finite 25) TemperatureUnit.Celsius
      (WriteOutcome.ok 10) = (Except.ok (), (⟨some ()⟩ : DeviceManager)) ∧
    DeviceManager.send_temperature ⟨some ()⟩ (Float32.finite 25) TemperatureUnit.Celsius
      (WriteOutcome.err "hid error") =
      (Except.error (OcypusError.Device ("Failed to write to device: " ++ "hid error")),
        (⟨some ()⟩ : DeviceManager)) := by
  obtain ⟨-, h2, h3, -⟩ :=
    C8_send_write_result ⟨some ()⟩ (Float32.finite 25) TemperatureUnit.Celsius rfl
  exact ⟨h2 10 (by decide), h3 "hid error"⟩

/-- C10: calling `send_temperature` on a disconnected manager returns the
typed "Device not connected" error whatever the would-be write outcome (no
write is attempted), and leaves the manager state unchanged. -/
theorem C10_send_not_connected (dm : DeviceManager) (t : Float32) (u : TemperatureUnit)
    (h : dm.device = none) :
    ∀ w, DeviceManager.send_temperature dm t u w =
      (Except.error (OcypusError.Device "Device not connected"), dm) := by
  intro w
  rw [DeviceManager.send_temperature.eq_def, h]

/-- Witness for C10: the disconnected manager at a concrete input. -/
theorem C10_send_not_connected_witness :
    DeviceManager.send_temperature ⟨none⟩ (Float32.finite 25) TemperatureUnit.Celsius
      (WriteOutcome.ok 64) =
      (Except.error (OcypusError.Device "Device not connected"), (⟨none⟩ : DeviceManager)) :=
  C10_send_not_connected ⟨none⟩ (Float32.finite 25) TemperatureUnit.Celsius rfl
    (WriteOutcome.ok 64)
